import Mathlib

/-!
Verification of the geofence-location subsystem and registration flow of the
HRD employee-management application. Each definition below is a shallow
embedding of one function of the TypeScript source (or of a table/constraint
declared in the SQL migrations); theorems at the end of the file settle the
specification claims against these definitions.

Conventions: database tables are lists of row structures; the hosted backend
(query success/failure, storage uploads, public URLs) is an explicit oracle
passed as a parameter; JavaScript numbers are modelled as rationals; fallible
operations return Option.
-/

namespace HRD

/-- A row of the employee_location_assignments join table
(src/unnamed/part_001, lines 38-44). The id and created_at columns are
generated by the database and play no role in the claims, so the embedded row
keeps the two foreign-key columns; UNIQUE(employee_id, location_id) is the
pair-uniqueness constraint used as a hypothesis below. -/
structure Assignment where
  employee_id : String
  location_id : String
deriving DecidableEq

/-- A row of the geofence_locations table (src/supabase migrations): id, name,
address, latitude, longitude, radius, created_at. created_at is modelled as a
Nat timestamp so that the order-by clause can compare it. -/
structure GeofenceLocation where
  id : String
  name : String
  address : String
  latitude : Rat
  longitude : Rat
  radius : Rat
  created_at : Nat
deriving DecidableEq

/-- The (employee_id, location_id) pairs of a list of assignment rows; the
UNIQUE(employee_id, location_id) constraint of the join table says these are
nodup. -/
def assignmentPairs (rows : List Assignment) : List (String × String) :=
  rows.map (fun a => (a.employee_id, a.location_id))

/-- The assignment-replacement step of handleSubmitLocation in the update
branch (src/src/pages/LocationsPage.tsx, lines 153-173): delete every
assignment row whose location_id equals the edited location id, then, when the
selection is non-empty, insert one row per selected employee id. -/
def replaceLocationAssignments (assignments : List Assignment)
    (locationId : String) (assignedEmployees : List String) : List Assignment :=
  let afterDelete := assignments.filter (fun a => !(a.location_id == locationId))
  let inserted :=
    if assignedEmployees.length > 0 then
      assignedEmployees.map (fun employeeId =>
        { employee_id := employeeId, location_id := locationId })
    else []
  afterDelete ++ inserted

/-- handleSave of EmployeeLocationAssignmentDialog
(src/src/components/employee/EmployeeLocationAssignmentDialog.tsx,
lines 126-179): when the employee id is missing the save aborts with a toast
and changes nothing; otherwise it deletes every assignment row of that
employee and, when the selection is non-empty, inserts one row per selected
location id. -/
def handleSave (assignments : List Assignment) (empId : Option String)
    (selectedLocations : List String) : List Assignment :=
  match empId with
  | none => assignments
  | some empId =>
    let afterDelete := assignments.filter (fun a => !(a.employee_id == empId))
    let inserted :=
      if selectedLocations.length > 0 then
        selectedLocations.map (fun locationId =>
          { employee_id := empId, location_id := locationId })
      else []
    afterDelete ++ inserted

/-- The database state the locations page operates on. -/
structure DBState where
  geofence_locations : List GeofenceLocation
  employee_location_assignments : List Assignment
deriving DecidableEq

/-- handleDeleteLocation (src/src/pages/LocationsPage.tsx, lines 82-108)
combined with the schema of src/unnamed/part_001 lines 38-44: the handler
returns unless the interactive confirmation is accepted; the delete call
removes the geofence_locations row with the given id, and the ON DELETE
CASCADE foreign key of employee_location_assignments removes every assignment
row referencing it; when the backend reports an error the state is unchanged
(the handler only shows a toast). -/
def handleDeleteLocation (confirmed : Bool) (deleteOk : Bool)
    (db : DBState) (locationId : String) : DBState :=
  if !confirmed then db
  else if deleteOk then
    { geofence_locations := db.geofence_locations.filter (fun l => !(l.id == locationId)),
      employee_location_assignments :=
        db.employee_location_assignments.filter (fun a => !(a.location_id == locationId)) }
  else db

/-! ### Client-side form validation (claim C3) -/

/-- The values the location dialog form submits: name, address, latitude,
longitude, radius (JavaScript numbers modelled as rationals), plus the
employee selection. -/
structure LocationFormInput where
  name : String
  address : String
  latitude : Rat
  longitude : Rat
  radius : Rat
  assignedEmployees : Option (List String)

/-- The zod formSchema of the geofence dialog (src/unnamed/part_004,
lines 46-83), on the numeric form values: name and address require length at
least 1; latitude is refined to [-90, 90]; longitude to [-180, 180]; radius
to strictly positive; assignedEmployees is optional and unconstrained. -/
def formSchemaParse (f : LocationFormInput) : Bool :=
  decide (1 ≤ f.name.length) && decide (1 ≤ f.address.length) &&
  (decide ((-90 : Rat) ≤ f.latitude) && decide (f.latitude ≤ 90)) &&
  (decide ((-180 : Rat) ≤ f.longitude) && decide (f.longitude ≤ 180)) &&
  decide ((0 : Rat) < f.radius)

/-- The react-hook-form submission gate with zodResolver(formSchema): the
submit handler (and hence every network call of handleSubmitLocation) runs
only when the schema parse succeeds; a failed parse surfaces field errors and
issues nothing. -/
def handleSubmitGate (f : LocationFormInput) : Option LocationFormInput :=
  if formSchemaParse f then some f else none

/-- Whether submitting the form issues any network call: exactly when the
gate passes the values through to onSubmit (handleSubmitLocation). -/
def submitIssuesNetworkCall (f : LocationFormInput) : Bool :=
  (handleSubmitGate f).isSome

/-! ### Listing locations (claim C4) -/

/-- The employees(name, employee_id) record joined into an assignment query
row by the select of fetchLocations. -/
structure EmployeeDetail where
  name : String
  employee_id : String
deriving DecidableEq

/-- One row of the per-location assignment query of fetchLocations:
select("employee_id, employees(name, employee_id)"). The joined employee
record may be absent. -/
structure AsgJoinRow where
  employee_id : String
  employees : Option EmployeeDetail
deriving DecidableEq

/-- One element of the list fetchLocations builds: the location row, spread
together with assigned_employees and employee_details when the assignment
query for it succeeded; on an assignment-query error the bare location is
returned, so both attached fields are absent. -/
structure LocationView where
  loc : GeofenceLocation
  assigned_employees : Option (List String)
  employee_details : Option (List (Option EmployeeDetail))
deriving DecidableEq

/-- The outcome of fetchLocations: either the whole list fails into a
destructive toast, or a list of location views is produced. -/
inductive FetchResult where
  | failure
  | success (locations : List LocationView)
deriving DecidableEq

/-- The body of the Promise.all callback in fetchLocations
(src/src/pages/LocationsPage.tsx, lines 37-55): query the assignment rows of
one location; on error log and return the bare location, otherwise attach the
employee ids and joined employee records. The assignment query is the oracle
asg, with none modelling assignmentsError. -/
def attachEmployees (asg : String → Option (List AsgJoinRow))
    (location : GeofenceLocation) : LocationView :=
  match asg location.id with
  | none => { loc := location, assigned_employees := none, employee_details := none }
  | some rows =>
    { loc := location,
      assigned_employees := some (rows.map (fun a => a.employee_id)),
      employee_details := some (rows.map (fun a => a.employees)) }

/-- fetchLocations (src/src/pages/LocationsPage.tsx, lines 25-69): when the
locations query itself fails the whole operation fails into a toast;
otherwise the backend returns the geofence_locations rows ordered by
created_at descending (the order clause of the query, modelled as a sort of
the table), and each row is decorated by attachEmployees. -/
def fetchLocations (dbLocs : List GeofenceLocation) (locationsOk : Bool)
    (asg : String → Option (List AsgJoinRow)) : FetchResult :=
  if locationsOk then
    .success (((dbLocs.mergeSort (fun a b => decide (b.created_at ≤ a.created_at)))).map
      (attachEmployees asg))
  else .failure

/-! ### Map-view text search (claim C5) -/

/-- Whether needle is a prefix of hay, on character lists. -/
def listStarts : List Char → List Char → Bool
  | _, [] => true
  | [], _ :: _ => false
  | h :: hs, n :: ns => h == n && listStarts hs ns

/-- Whether needle occurs as a contiguous substring of hay, on character
lists: the semantics of JavaScript String.prototype.includes. -/
def listHasInfix (hay needle : List Char) : Bool :=
  match hay with
  | [] => listStarts [] needle
  | _ :: hs => listStarts hay needle || listHasInfix hs needle

/-- s.includes(sub): substring containment on strings. -/
def strIncludes (s sub : String) : Bool :=
  listHasInfix s.toList sub.toList

/-- s.toLowerCase(): lowercase every character. -/
def strToLower (s : String) : String :=
  ⟨s.data.map Char.toLower⟩

/-- Leading and trailing whitespace removed from a character list. -/
def jsTrimList (l : List Char) : List Char :=
  (((l.dropWhile Char.isWhitespace).reverse).dropWhile Char.isWhitespace).reverse

/-- s.trim(): strip whitespace from both ends. -/
def jsTrim (s : String) : String :=
  ⟨jsTrimList s.data⟩

/-- The search filter of GeofenceMapView (src/unnamed/part_002,
lines 81-103): a blank (all-whitespace) query keeps every location; otherwise
the query is lowercased and trimmed and a location is kept when its name or
its address contains it case-insensitively. The null-location guard of the
source is vacuous here because rows are total values. -/
def filterLocations (locations : List GeofenceLocation)
    (searchQuery : String) : List GeofenceLocation :=
  if jsTrim searchQuery = "" then locations
  else
    let query := jsTrim (strToLower searchQuery)
    locations.filter (fun location =>
      let nameMatch := strIncludes (strToLower location.name) query
      let addressMatch := strIncludes (strToLower location.address) query
      nameMatch || addressMatch)

/-! ### Registration flow (claims C6, C7, C10) -/

/-- The user object of a successful identity sign-up. -/
structure AuthUser where
  id : String
deriving DecidableEq

/-- The data object supabase.auth.signUp resolves with; its user field may be
absent. -/
structure AuthData where
  user : Option AuthUser
deriving DecidableEq

/-- The profile-metadata payload signUp accepts
(src/src/lib/supabaseClient.ts, lines 27-37). The source field alias is a
reserved word here, so it is spelled aliasName. -/
structure UserMetadata where
  firstName : String
  lastName : String
  aliasName : Option String
  placeOfBirth : String
  dateOfBirth : String
  religion : String
  address : String
  phoneNumber : String
  relativePhoneNumber : String
deriving DecidableEq

/-- A file of a FileList input; only its name matters to the embedded code
(the extension is split out of it). -/
structure UpFile where
  name : String
deriving DecidableEq

/-- The four optional document FileLists signUp accepts
(src/src/lib/supabaseClient.ts, lines 39-44); a FileList is a list of files,
possibly empty. -/
structure FileUploads where
  selfie : Option (List UpFile)
  ktp : Option (List UpFile)
  kk : Option (List UpFile)
  cv : Option (List UpFile)
deriving DecidableEq

/-- The row handed to supabase.from("profiles").upsert by signUp
(src/src/lib/supabaseClient.ts, lines 125-143). The created_at/updated_at
timestamps are wall-clock environment values and are omitted. -/
structure ProfileRow where
  id : String
  first_name : String
  last_name : String
  aliasName : Option String
  fuel_name : Option String
  place_of_birth : String
  date_of_birth : String
  religion : String
  address : String
  phone_number : String
  relative_phone_number : String
  selfie_url : Option String
  ktp_url : Option String
  kk_url : Option String
  cv_url : Option String
deriving DecidableEq

/-- The backend oracle signUp runs against: the identity-layer response
(data, error), whether a storage upload of a given path fails, the public URL
of a path, and the error of the profiles upsert, if any. -/
structure SignUpEnv where
  authData : Option AuthData
  authError : Option String
  uploadError : String → Bool
  publicUrl : String → Option String
  profileError : Option String

/-- The storage path uploadFile writes (src/src/lib/supabaseClient.ts,
lines 46-49): documents/userId/fileType.ext where ext is the last
dot-separated component of the file name. -/
def uploadFilePath (userId fileType : String) (file : UpFile) : String :=
  let fileExt := (file.name.splitOn ".").getLastD ""
  "documents/" ++ userId ++ "/" ++ fileType ++ "." ++ fileExt

/-- uploadFile (src/src/lib/supabaseClient.ts, lines 46-68): upload to the
user-documents bucket with upsert semantics; on an upload error return null,
otherwise return the public URL of the path (null when absent). -/
def uploadFile (env : SignUpEnv) (file : UpFile) (userId fileType : String) :
    Option String :=
  let filePath := uploadFilePath userId fileType file
  if env.uploadError filePath then none
  else env.publicUrl filePath

/-- One conditional upload step of signUp (lines 102-122): a file input is
uploaded only when present and non-empty, and then only its first entry;
returns the URL column value and the storage paths written. -/
def maybeUpload (env : SignUpEnv) (field : Option (List UpFile))
    (userId fileType : String) : Option String × List String :=
  match field with
  | none => (none, [])
  | some [] => (none, [])
  | some (f :: _) => (uploadFile env f userId fileType, [uploadFilePath userId fileType f])

/-- The observable side effects of a signUp call: the storage paths written,
the row handed to the profiles upsert (none when no upsert was issued), and
the error log lines. -/
structure SignUpEffects where
  uploads : List String
  profileRow : Option ProfileRow
  logs : List String

/-- The value signUp returns: the identity-layer data and error, passed
through unchanged. -/
structure SignUpReturn where
  data : Option AuthData
  error : Option String
deriving DecidableEq

/-- signUp (src/src/lib/supabaseClient.ts, lines 70-156): call the identity
layer; when it yielded a user and a metadata payload was supplied, upload the
non-empty document files in order (selfie, ktp, kk, cv) and upsert the
profiles row with the resulting URLs; an upsert error is only logged. The
return value is always the identity-layer (data, error) pair; the catch-all
branch for thrown exceptions is unreachable because the oracles are total. -/
def signUp (email password : String) (metadata : Option UserMetadata)
    (files : Option FileUploads) (env : SignUpEnv) : SignUpReturn × SignUpEffects :=
  let data := env.authData
  let error := env.authError
  let effects : SignUpEffects :=
    match data.bind (fun d => d.user), metadata with
    | some user, some m =>
      let su :=
        match files with
        | none => ((none : Option String), ([] : List String))
        | some fs => maybeUpload env fs.selfie user.id "selfie"
      let ku :=
        match files with
        | none => ((none : Option String), ([] : List String))
        | some fs => maybeUpload env fs.ktp user.id "ktp"
      let kku :=
        match files with
        | none => ((none : Option String), ([] : List String))
        | some fs => maybeUpload env fs.kk user.id "kk"
      let cu :=
        match files with
        | none => ((none : Option String), ([] : List String))
        | some fs => maybeUpload env fs.cv user.id "cv"
      let row : ProfileRow :=
        { id := user.id
          first_name := m.firstName
          last_name := m.lastName
          aliasName := m.aliasName
          fuel_name := m.aliasName
          place_of_birth := m.placeOfBirth
          date_of_birth := m.dateOfBirth
          religion := m.religion
          address := m.address
          phone_number := m.phoneNumber
          relative_phone_number := m.relativePhoneNumber
          selfie_url := su.1
          ktp_url := ku.1
          kk_url := kku.1
          cv_url := cu.1 }
      let logs :=
        match env.profileError with
        | some e => ["Error storing user profile: " ++ e]
        | none => []
      { uploads := su.2 ++ ku.2 ++ kku.2 ++ cu.2, profileRow := some row, logs := logs }
    | _, _ => { uploads := [], profileRow := none, logs := [] }
  ({ data := data, error := error }, effects)

/-- The upload plan the spec describes for claim C7: each file input is
uploaded individually, and only file inputs with content are uploaded, in the
order selfie, ktp, kk, cv. Written from the spec words, to be compared with
the uploads signUp performs. -/
def specUploadPlan (userId : String) (fs : FileUploads) : List String :=
  (match fs.selfie with
   | some (f :: _) => [uploadFilePath userId "selfie" f]
   | _ => []) ++
  (match fs.ktp with
   | some (f :: _) => [uploadFilePath userId "ktp" f]
   | _ => []) ++
  (match fs.kk with
   | some (f :: _) => [uploadFilePath userId "kk" f]
   | _ => []) ++
  (match fs.cv with
   | some (f :: _) => [uploadFilePath userId "cv" f]
   | _ => [])

/-! ### Routing and the auth guard (claim C8) -/

/-- What rendering a route produces: the auth-loading placeholder, a page
component (by name), a client-side redirect, or the element-less tempobook
route. -/
inductive RouteElement where
  | loadingAuth
  | page (name : String)
  | redirectTo (path : String)
  | tempoRoute
deriving DecidableEq

/-- The auth context the guard reads: the signed-in user id, if any, and
whether the session is still being resolved. -/
structure AuthState where
  user : Option String
  isLoading : Bool
deriving DecidableEq

/-- ProtectedRoute (src/src/App.tsx, lines 20-32): show the loading
placeholder while auth resolves, redirect to /login when there is no user,
otherwise render the children. -/
def protectedRoute (auth : AuthState) (children : String) : RouteElement :=
  if auth.isLoading then .loadingAuth
  else
    match auth.user with
    | none => .redirectTo "/login"
    | some _ => .page children

/-- The Routes table of AppRoutes (src/src/App.tsx, lines 38-107), as the
function from a URL path to the element rendered: login and register are
public; the eight feature paths are wrapped in ProtectedRoute; when the tempo
flag is set a tempobook subtree matches an element-less route; every other
path navigates to /. -/
def appRoutes (tempo : Bool) (auth : AuthState) (path : String) : RouteElement :=
  if path = "/login" then .page "LoginPage"
  else if path = "/register" then .page "RegisterForm"
  else if path = "/" then protectedRoute auth "Home"
  else if path = "/employees" then protectedRoute auth "EmployeesPage"
  else if path = "/shifts" then protectedRoute auth "ShiftsPage"
  else if path = "/leaves" then protectedRoute auth "LeavesPage"
  else if path = "/reports" then protectedRoute auth "ReportsPage"
  else if path = "/settings" then protectedRoute auth "SettingsPage"
  else if path = "/freelance" then protectedRoute auth "FreelancePage"
  else if path = "/locations" then protectedRoute auth "LocationsPage"
  else if tempo && path.startsWith "/tempobook/" then .tempoRoute
  else .redirectTo "/"

/-- The protected paths of the routing surface, with the page each renders. -/
def protectedPaths : List (String × String) :=
  [("/", "Home"), ("/employees", "EmployeesPage"), ("/shifts", "ShiftsPage"),
   ("/leaves", "LeavesPage"), ("/reports", "ReportsPage"),
   ("/settings", "SettingsPage"), ("/freelance", "FreelancePage"),
   ("/locations", "LocationsPage")]

/-- Whether a path is in the declared routing surface: one of the named
routes, or (when the tempo flag is set) under the tempobook subtree. -/
def declaredSurface (tempo : Bool) (path : String) : Bool :=
  path == "/login" || path == "/register" || path == "/" ||
  path == "/employees" || path == "/shifts" || path == "/leaves" ||
  path == "/reports" || path == "/settings" || path == "/freelance" ||
  path == "/locations" || (tempo && path.startsWith "/tempobook/")

/-! ### General list facts used by the replacement proofs -/

theorem filter_self_filter {α : Type} (p : α → Bool) (l : List α) :
    (l.filter p).filter p = l.filter p := by
  simp [List.filter_filter]

theorem filter_pos_of_neg {α : Type} (p : α → Bool) (l : List α) :
    (l.filter (fun a => !(p a))).filter p = [] := by
  rw [List.filter_filter]
  simp

theorem filter_neg_of_neg {α : Type} (p : α → Bool) (l : List α) :
    (l.filter (fun a => !(p a))).filter (fun a => !(p a)) = l.filter (fun a => !(p a)) := by
  simp [List.filter_filter]

theorem replaceLocationAssignments_eq (assignments : List Assignment)
    (locationId : String) (assignedEmployees : List String) :
    replaceLocationAssignments assignments locationId assignedEmployees =
      assignments.filter (fun a => !(a.location_id == locationId)) ++
        assignedEmployees.map (fun employeeId =>
          { employee_id := employeeId, location_id := locationId }) := by
  unfold replaceLocationAssignments
  cases assignedEmployees with
  | nil => simp
  | cons h t => simp

theorem handleSave_eq (assignments : List Assignment) (empId : String)
    (selectedLocations : List String) :
    handleSave assignments (some empId) selectedLocations =
      assignments.filter (fun a => !(a.employee_id == empId)) ++
        selectedLocations.map (fun locationId =>
          { employee_id := empId, location_id := locationId }) := by
  unfold handleSave
  cases selectedLocations with
  | nil => simp
  | cons h t => simp

theorem one_le_string_length_iff (s : String) : 1 ≤ s.length ↔ s ≠ "" := by
  rw [Nat.one_le_iff_ne_zero]
  constructor
  · intro h he
    subst he
    exact h rfl
  · intro h hlen
    apply h
    cases s with
    | mk data =>
      simp [String.length] at hlen
      subst hlen
      rfl

/-! ### Claim theorems -/

/-- C3: the client-side schema accepts a location submission exactly when
name and address are non-empty, latitude lies in [-90, 90], longitude in
[-180, 180] and radius is strictly positive; and a network call is issued
exactly when the schema accepts, so every out-of-range input (radius 0 and
negative radius included) fails before any network call. -/
theorem formSchema_accepts_iff (f : LocationFormInput) :
    (formSchemaParse f = true ↔
      (f.name ≠ "" ∧ f.address ≠ "" ∧
       (-90 : Rat) ≤ f.latitude ∧ f.latitude ≤ 90 ∧
       (-180 : Rat) ≤ f.longitude ∧ f.longitude ≤ 180 ∧
       (0 : Rat) < f.radius)) ∧
    submitIssuesNetworkCall f = formSchemaParse f := by
  constructor
  · simp only [formSchemaParse, Bool.and_eq_true, decide_eq_true_eq,
      one_le_string_length_iff]
    tauto
  · cases h : formSchemaParse f <;>
      simp [submitIssuesNetworkCall, handleSubmitGate, h]

/-- C4: when the locations query fails the whole list fails into the error
toast; when it succeeds the result lists every stored location exactly once,
ordered by created_at descending, and each entry carries the employee ids of
its assignment rows, except that an entry whose assignment query failed is
the bare location with no assigned-employees list. -/
theorem fetchLocations_ordered_and_degraded
    (dbLocs : List GeofenceLocation) (asg : String → Option (List AsgJoinRow)) :
    fetchLocations dbLocs false asg = .failure ∧
    (∃ xs, fetchLocations dbLocs true asg = .success xs ∧
      (xs.map (fun v => v.loc)).Perm dbLocs ∧
      xs.Pairwise (fun u v => v.loc.created_at ≤ u.loc.created_at) ∧
      ∀ v ∈ xs,
        (asg v.loc.id = none → v.assigned_employees = none) ∧
        ∀ rows, asg v.loc.id = some rows →
          v.assigned_employees = some (rows.map (fun a => a.employee_id))) := by
  have hloc : ∀ l : GeofenceLocation, (attachEmployees asg l).loc = l := by
    intro l
    unfold attachEmployees
    cases asg l.id <;> rfl
  refine ⟨rfl, _, rfl, ?_, ?_, ?_⟩
  · rw [List.map_map,
      show ((fun v : LocationView => v.loc) ∘ attachEmployees asg) = id from
        funext fun l => hloc l,
      List.map_id]
    exact List.mergeSort_perm dbLocs _
  · have hsorted : (dbLocs.mergeSort
        (fun a b => decide (b.created_at ≤ a.created_at))).Pairwise
        (fun a b => decide (b.created_at ≤ a.created_at) = true) := by
      apply List.sorted_mergeSort
      · intro a b c hab hbc
        simp only [decide_eq_true_eq] at hab hbc ⊢
        exact le_trans hbc hab
      · intro a b
        simp only [Bool.or_eq_true, decide_eq_true_eq]
        exact Nat.le_total b.created_at a.created_at
    refine List.Pairwise.map _ ?_ hsorted
    intro a b h
    have hh : b.created_at ≤ a.created_at := by simpa using h
    rw [hloc a, hloc b]
    exact hh
  · intro v hv
    obtain ⟨l, hl, rfl⟩ := List.mem_map.mp hv
    constructor
    · intro hnone
      rw [hloc l] at hnone
      simp [attachEmployees, hnone]
    · intro rows hrows
      rw [hloc l] at hrows
      simp [attachEmployees, hrows]

/-- C5 counterexample: the one-space query is a non-empty search query, yet
the filter keeps a location whose name and address do not contain it, even
case-insensitively, because the code trims the query and treats a
blank-after-trim query as no filter at all. -/
theorem mapView_search_filter_counterexample :
    (" " : String) ≠ "" ∧
    filterLocations [⟨"L1", "A", "B", 0, 0, 100, 0⟩] " " =
      [⟨"L1", "A", "B", 0, 0, 100, 0⟩] ∧
    strIncludes (strToLower "A") (strToLower " ") = false ∧
    strIncludes (strToLower "B") (strToLower " ") = false :=
  ⟨by decide, by decide, by decide, by decide⟩

/-- C5 (amended): a query that is blank after trimming keeps every location;
for every other query the map view keeps exactly the locations whose name or
address contains the lowercased, trimmed query as a substring of their own
lowercased text. -/
theorem mapView_search_filter (locations : List GeofenceLocation) (q : String) :
    (jsTrim q = "" → filterLocations locations q = locations) ∧
    (¬(jsTrim q = "") →
      ∀ l, l ∈ filterLocations locations q ↔
        l ∈ locations ∧
          (strIncludes (strToLower l.name) (jsTrim (strToLower q)) = true ∨
           strIncludes (strToLower l.address) (jsTrim (strToLower q)) = true)) := by
  constructor
  · intro h
    unfold filterLocations
    rw [if_pos h]
  · intro hq l
    unfold filterLocations
    rw [if_neg hq]
    simp [List.mem_filter, Bool.or_eq_true]

/-- Closed instance of the C5 theorem: the query office matches the location
named Main Office and the one whose address is 12 Office Park, and does not
match an unrelated location. -/
theorem mapView_search_filter_witness :
    (¬(jsTrim "office" = "")) ∧
    ((⟨"L1", "Main Office", "HQ Street", 0, 0, 100, 0⟩ : GeofenceLocation) ∈
      filterLocations
        [⟨"L1", "Main Office", "HQ Street", 0, 0, 100, 0⟩,
         ⟨"L2", "Warehouse", "12 Office Park", 0, 0, 50, 0⟩,
         ⟨"L3", "Depot", "9 Harbor Road", 0, 0, 50, 0⟩] "office" ∧
     (⟨"L2", "Warehouse", "12 Office Park", 0, 0, 50, 0⟩ : GeofenceLocation) ∈
      filterLocations
        [⟨"L1", "Main Office", "HQ Street", 0, 0, 100, 0⟩,
         ⟨"L2", "Warehouse", "12 Office Park", 0, 0, 50, 0⟩,
         ⟨"L3", "Depot", "9 Harbor Road", 0, 0, 50, 0⟩] "office" ∧
     (⟨"L3", "Depot", "9 Harbor Road", 0, 0, 50, 0⟩ : GeofenceLocation) ∉
      filterLocations
        [⟨"L1", "Main Office", "HQ Street", 0, 0, 100, 0⟩,
         ⟨"L2", "Warehouse", "12 Office Park", 0, 0, 50, 0⟩,
         ⟨"L3", "Depot", "9 Harbor Road", 0, 0, 50, 0⟩] "office") := by
  have h := (mapView_search_filter
    [⟨"L1", "Main Office", "HQ Street", 0, 0, 100, 0⟩,
     ⟨"L2", "Warehouse", "12 Office Park", 0, 0, 50, 0⟩,
     ⟨"L3", "Depot", "9 Harbor Road", 0, 0, 50, 0⟩] "office").2 (by decide)
  refine ⟨by decide, ?_, ?_, ?_⟩
  · exact (h _).mpr ⟨by simp, Or.inl (by decide)⟩
  · exact (h _).mpr ⟨by simp, Or.inr (by decide)⟩
  · intro hmem
    rcases ((h _).mp hmem).2 with hc | hc
    · exact absurd hc (by decide)
    · exact absurd hc (by decide)

/-- C6: when the identity layer reports no error, signUp returns the identity
data with no error, and the returned value does not depend on the outcome of
the profiles upsert. -/
theorem signUp_result_independent_of_profile_write
    (email password : String) (metadata : Option UserMetadata)
    (files : Option FileUploads) (env : SignUpEnv)
    (hauth : env.authError = none) :
    (signUp email password metadata files env).1 =
      { data := env.authData, error := none } ∧
    ∀ pe, (signUp email password metadata files
        { env with profileError := pe }).1 =
      (signUp email password metadata files env).1 := by
  constructor
  · have h1 : (signUp email password metadata files env).1 =
        { data := env.authData, error := env.authError } := rfl
    rw [h1, hauth]
  · intro pe
    rfl

/-- Closed instance of the C6 theorem: a successful identity sign-up with a
failing profiles upsert still returns the identity data with no error. -/
theorem signUp_result_independent_of_profile_write_witness :
    (({ authData := some { user := some { id := "u1" } }, authError := none,
        uploadError := fun _ => false, publicUrl := fun _ => some "https://cdn/x",
        profileError := some "row level security violation" } : SignUpEnv).authError
      = none) ∧
    ((signUp "jane@example.com" "secret7" none none
        { authData := some { user := some { id := "u1" } }, authError := none,
          uploadError := fun _ => false, publicUrl := fun _ => some "https://cdn/x",
          profileError := some "row level security violation" }).1 =
      { data := some { user := some { id := "u1" } }, error := none } ∧
    ∀ pe, (signUp "jane@example.com" "secret7" none none
        { authData := some { user := some { id := "u1" } }, authError := none,
          uploadError := fun _ => false, publicUrl := fun _ => some "https://cdn/x",
          profileError := pe }).1 =
      (signUp "jane@example.com" "secret7" none none
        { authData := some { user := some { id := "u1" } }, authError := none,
          uploadError := fun _ => false, publicUrl := fun _ => some "https://cdn/x",
          profileError := some "row level security violation" }).1) :=
  ⟨rfl, signUp_result_independent_of_profile_write "jane@example.com" "secret7"
    none none
    { authData := some { user := some { id := "u1" } }, authError := none,
      uploadError := fun _ => false, publicUrl := fun _ => some "https://cdn/x",
      profileError := some "row level security violation" } rfl⟩

/-- C7: during sign-up only file inputs with content are uploaded, each
individually (the uploads performed coincide with the spec upload plan for
every combination of file inputs); and with a selfie file but no ktp, kk or
cv files, the upserted profile row has selfie_url populated with the public
URL and the other three URL columns null. -/
theorem signUp_uploads_only_nonempty_files
    (email password : String) (m : UserMetadata) (env : SignUpEnv)
    (u : AuthUser) (f : UpFile) (rest : List UpFile) (url : String)
    (huser : env.authData.bind (fun d => d.user) = some u)
    (hup : env.uploadError (uploadFilePath u.id "selfie" f) = false)
    (hurl : env.publicUrl (uploadFilePath u.id "selfie" f) = some url) :
    (∀ fs : FileUploads,
      (signUp email password (some m) (some fs) env).2.uploads =
        specUploadPlan u.id fs) ∧
    (signUp email password (some m)
        (some { selfie := some (f :: rest), ktp := none, kk := none, cv := none })
        env).2.profileRow =
      some { id := u.id, first_name := m.firstName, last_name := m.lastName,
             aliasName := m.aliasName, fuel_name := m.aliasName,
             place_of_birth := m.placeOfBirth, date_of_birth := m.dateOfBirth,
             religion := m.religion, address := m.address,
             phone_number := m.phoneNumber,
             relative_phone_number := m.relativePhoneNumber,
             selfie_url := some url, ktp_url := none, kk_url := none,
             cv_url := none } ∧
    (signUp email password (some m)
        (some { selfie := some (f :: rest), ktp := none, kk := none, cv := none })
        env).2.uploads = [uploadFilePath u.id "selfie" f] := by
  refine ⟨?_, ?_, ?_⟩
  · intro fs
    rcases fs with ⟨s, k, kk2, c⟩
    rcases s with _ | ⟨_ | ⟨sf, st⟩⟩ <;>
      rcases k with _ | ⟨_ | ⟨kf, kt⟩⟩ <;>
        rcases kk2 with _ | ⟨_ | ⟨kkf, kkt⟩⟩ <;>
          rcases c with _ | ⟨_ | ⟨cf, ct⟩⟩ <;>
            simp [signUp, huser, specUploadPlan, maybeUpload]
  · simp [signUp, huser, maybeUpload, uploadFile, hup, hurl]
  · simp [signUp, huser, maybeUpload]

/-- Closed instance of the C7 theorem: sign-up of user u1 with one selfie
file and no other documents populates only selfie_url. -/
theorem signUp_uploads_only_nonempty_files_witness :
    (({ authData := some { user := some { id := "u1" } }, authError := none,
        uploadError := fun _ => false, publicUrl := fun _ => some "https://cdn/selfie",
        profileError := none } : SignUpEnv).authData.bind (fun d => d.user) =
      some { id := "u1" } ∧
     ({ authData := some { user := some { id := "u1" } }, authError := none,
        uploadError := fun _ => false, publicUrl := fun _ => some "https://cdn/selfie",
        profileError := none } : SignUpEnv).uploadError
        (uploadFilePath "u1" "selfie" { name := "me.png" }) = false ∧
     ({ authData := some { user := some { id := "u1" } }, authError := none,
        uploadError := fun _ => false, publicUrl := fun _ => some "https://cdn/selfie",
        profileError := none } : SignUpEnv).publicUrl
        (uploadFilePath "u1" "selfie" { name := "me.png" }) =
      some "https://cdn/selfie") ∧
    ((∀ fs : FileUploads,
      (signUp "jane@example.com" "secret7"
        (some { firstName := "Jane", lastName := "Doe", aliasName := none,
                placeOfBirth := "Jakarta", dateOfBirth := "1990-01-01",
                religion := "X", address := "1 Main St", phoneNumber := "08",
                relativePhoneNumber := "09" })
        (some fs)
        { authData := some { user := some { id := "u1" } }, authError := none,
          uploadError := fun _ => false, publicUrl := fun _ => some "https://cdn/selfie",
          profileError := none }).2.uploads = specUploadPlan "u1" fs) ∧
    (signUp "jane@example.com" "secret7"
        (some { firstName := "Jane", lastName := "Doe", aliasName := none,
                placeOfBirth := "Jakarta", dateOfBirth := "1990-01-01",
                religion := "X", address := "1 Main St", phoneNumber := "08",
                relativePhoneNumber := "09" })
        (some { selfie := some [{ name := "me.png" }], ktp := none, kk := none,
                cv := none })
        { authData := some { user := some { id := "u1" } }, authError := none,
          uploadError := fun _ => false, publicUrl := fun _ => some "https://cdn/selfie",
          profileError := none }).2.profileRow =
      some { id := "u1", first_name := "Jane", last_name := "Doe",
             aliasName := none, fuel_name := none, place_of_birth := "Jakarta",
             date_of_birth := "1990-01-01", religion := "X",
             address := "1 Main St", phone_number := "08",
             relative_phone_number := "09",
             selfie_url := some "https://cdn/selfie", ktp_url := none,
             kk_url := none, cv_url := none } ∧
    (signUp "jane@example.com" "secret7"
        (some { firstName := "Jane", lastName := "Doe", aliasName := none,
                placeOfBirth := "Jakarta", dateOfBirth := "1990-01-01",
                religion := "X", address := "1 Main St", phoneNumber := "08",
                relativePhoneNumber := "09" })
        (some { selfie := some [{ name := "me.png" }], ktp := none, kk := none,
                cv := none })
        { authData := some { user := some { id := "u1" } }, authError := none,
          uploadError := fun _ => false, publicUrl := fun _ => some "https://cdn/selfie",
          profileError := none }).2.uploads =
      [uploadFilePath "u1" "selfie" { name := "me.png" }]) :=
  ⟨⟨rfl, rfl, rfl⟩,
    signUp_uploads_only_nonempty_files "jane@example.com" "secret7"
      { firstName := "Jane", lastName := "Doe", aliasName := none,
        placeOfBirth := "Jakarta", dateOfBirth := "1990-01-01",
        religion := "X", address := "1 Main St", phoneNumber := "08",
        relativePhoneNumber := "09" }
      { authData := some { user := some { id := "u1" } }, authError := none,
        uploadError := fun _ => false, publicUrl := fun _ => some "https://cdn/selfie",
        profileError := none }
      { id := "u1" } { name := "me.png" } [] "https://cdn/selfie"
      rfl rfl rfl⟩

/-- C10: when the identity layer yields no user object, or no metadata
payload is supplied, signUp performs no storage upload and issues no profiles
upsert. -/
theorem signUp_no_side_effects_without_user_or_metadata
    (email password : String) (metadata : Option UserMetadata)
    (files : Option FileUploads) (env : SignUpEnv)
    (h : env.authData.bind (fun d => d.user) = none ∨ metadata = none) :
    (signUp email password metadata files env).2.uploads = [] ∧
    (signUp email password metadata files env).2.profileRow = none := by
  rcases h with h | h
  · constructor <;> simp [signUp, h]
  · subst h
    constructor <;>
      (cases hu : env.authData.bind (fun d => d.user) <;> simp [signUp, hu])

/-- Closed instance of the C10 theorem: an identity failure with no user,
even with a non-empty selfie file supplied, uploads nothing and writes no
profile row. -/
theorem signUp_no_side_effects_without_user_or_metadata_witness :
    ((({ authData := none, authError := some "email already registered",
         uploadError := fun _ => false, publicUrl := fun _ => none,
         profileError := none } : SignUpEnv).authData.bind (fun d => d.user) = none ∨
      (some { firstName := "Jane", lastName := "Doe", aliasName := none,
              placeOfBirth := "Jakarta", dateOfBirth := "1990-01-01",
              religion := "X", address := "1 Main St", phoneNumber := "08",
              relativePhoneNumber := "09" } : Option UserMetadata) = none) ∧
    ((signUp "jane@example.com" "secret7"
        (some { firstName := "Jane", lastName := "Doe", aliasName := none,
                placeOfBirth := "Jakarta", dateOfBirth := "1990-01-01",
                religion := "X", address := "1 Main St", phoneNumber := "08",
                relativePhoneNumber := "09" })
        (some { selfie := some [{ name := "me.png" }], ktp := none, kk := none,
                cv := none })
        { authData := none, authError := some "email already registered",
          uploadError := fun _ => false, publicUrl := fun _ => none,
          profileError := none }).2.uploads = [] ∧
     (signUp "jane@example.com" "secret7"
        (some { firstName := "Jane", lastName := "Doe", aliasName := none,
                placeOfBirth := "Jakarta", dateOfBirth := "1990-01-01",
                religion := "X", address := "1 Main St", phoneNumber := "08",
                relativePhoneNumber := "09" })
        (some { selfie := some [{ name := "me.png" }], ktp := none, kk := none,
                cv := none })
        { authData := none, authError := some "email already registered",
          uploadError := fun _ => false, publicUrl := fun _ => none,
          profileError := none }).2.profileRow = none)) :=
  ⟨Or.inl rfl,
    signUp_no_side_effects_without_user_or_metadata "jane@example.com" "secret7"
      (some { firstName := "Jane", lastName := "Doe", aliasName := none,
              placeOfBirth := "Jakarta", dateOfBirth := "1990-01-01",
              religion := "X", address := "1 Main St", phoneNumber := "08",
              relativePhoneNumber := "09" })
      (some { selfie := some [{ name := "me.png" }], ktp := none, kk := none,
              cv := none })
      { authData := none, authError := some "email already registered",
        uploadError := fun _ => false, publicUrl := fun _ => none,
        profileError := none }
      (Or.inl rfl)⟩

/-- C8: every protected route path, rendered with no session, redirects to
/login, and rendered with a session renders its page; every path outside the
declared routing surface redirects to /. -/
theorem appRoutes_auth_guard
    (tempo : Bool) (path page : String) (uid : String)
    (hmem : (path, page) ∈ protectedPaths) :
    appRoutes tempo { user := none, isLoading := false } path =
      .redirectTo "/login" ∧
    appRoutes tempo { user := some uid, isLoading := false } path = .page page ∧
    ∀ p2 auth, declaredSurface tempo p2 = false →
      appRoutes tempo auth p2 = .redirectTo "/" := by
  have hpair : appRoutes tempo { user := none, isLoading := false } path =
      .redirectTo "/login" ∧
      appRoutes tempo { user := some uid, isLoading := false } path = .page page := by
    fin_cases hmem <;> exact ⟨by simp [appRoutes, protectedRoute],
      by simp [appRoutes, protectedRoute]⟩
  refine ⟨hpair.1, hpair.2, ?_⟩
  · intro p2 auth h
    simp only [declaredSurface, Bool.or_eq_false_iff, beq_eq_false_iff_ne,
      ne_eq, Bool.and_eq_false_iff] at h
    obtain ⟨⟨⟨⟨⟨⟨⟨⟨⟨⟨h1, h2⟩, h3⟩, h4⟩, h5⟩, h6⟩, h7⟩, h8⟩, h9⟩, h10⟩, h11⟩ := h
    rcases h11 with h11 | h11 <;>
      simp [appRoutes, h1, h2, h3, h4, h5, h6, h7, h8, h9, h10, h11]

/-- Closed instance of the C8 theorem: /employees redirects to /login with no
session and renders EmployeesPage with one, and unknown paths redirect to /. -/
theorem appRoutes_auth_guard_witness :
    (("/employees", "EmployeesPage") ∈ protectedPaths) ∧
    (appRoutes false { user := none, isLoading := false } "/employees" =
      .redirectTo "/login" ∧
     appRoutes false { user := some "user-1", isLoading := false } "/employees" =
      .page "EmployeesPage" ∧
     ∀ p2 auth, declaredSurface false p2 = false →
       appRoutes false auth p2 = .redirectTo "/") :=
  ⟨by decide,
    appRoutes_auth_guard false "/employees" "EmployeesPage" "user-1" (by decide)⟩

/-- C1: saving a location assignment selection is a full replace and is
idempotent: the rows of the saved location after the save are exactly one row
per selected employee id, every row of any other location is untouched, a
second save of the same selection leaves the assignment table unchanged, and
when the stored pairs were unique and the selection has no repeats the final
table has no duplicate (employee_id, location_id) pair. -/
theorem locationAssignments_full_replace_idempotent
    (assignments : List Assignment) (locationId : String)
    (assignedEmployees : List String)
    (hdb : (assignmentPairs assignments).Nodup)
    (hsel : assignedEmployees.Nodup) :
    (replaceLocationAssignments assignments locationId assignedEmployees).filter
        (fun a => a.location_id == locationId) =
      assignedEmployees.map (fun employeeId =>
        { employee_id := employeeId, location_id := locationId }) ∧
    (replaceLocationAssignments assignments locationId assignedEmployees).filter
        (fun a => !(a.location_id == locationId)) =
      assignments.filter (fun a => !(a.location_id == locationId)) ∧
    replaceLocationAssignments
        (replaceLocationAssignments assignments locationId assignedEmployees)
        locationId assignedEmployees =
      replaceLocationAssignments assignments locationId assignedEmployees ∧
    (assignmentPairs
        (replaceLocationAssignments assignments locationId assignedEmployees)).Nodup := by
  have hre := replaceLocationAssignments_eq assignments locationId assignedEmployees
  have hMpos : (assignedEmployees.map (fun employeeId =>
      ({ employee_id := employeeId, location_id := locationId } : Assignment))).filter
        (fun a => a.location_id == locationId) =
      assignedEmployees.map (fun employeeId =>
        { employee_id := employeeId, location_id := locationId }) := by
    apply List.filter_eq_self.mpr
    intro a ha
    obtain ⟨e, _, rfl⟩ := List.mem_map.mp ha
    simp
  have hMneg : (assignedEmployees.map (fun employeeId =>
      ({ employee_id := employeeId, location_id := locationId } : Assignment))).filter
        (fun a => !(a.location_id == locationId)) = [] := by
    apply List.filter_eq_nil_iff.mpr
    intro a ha
    obtain ⟨e, _, rfl⟩ := List.mem_map.mp ha
    simp
  refine ⟨?_, ?_, ?_, ?_⟩
  · rw [hre, List.filter_append, filter_pos_of_neg, hMpos, List.nil_append]
  · rw [hre, List.filter_append, filter_neg_of_neg, hMneg, List.append_nil]
  · rw [hre, replaceLocationAssignments_eq, List.filter_append, filter_neg_of_neg,
      hMneg, List.append_nil]
  · rw [hre]
    simp only [assignmentPairs, List.map_append] at hdb ⊢
    apply List.Nodup.append
    · exact List.Nodup.sublist (List.Sublist.map _ (List.filter_sublist assignments)) hdb
    · rw [List.map_map]
      refine List.Nodup.map ?_ hsel
      intro a b h
      simpa using h
    · intro p hpA hpM
      have h2 : p.2 ≠ locationId := by
        obtain ⟨a, haA, rfl⟩ := List.mem_map.mp hpA
        have := List.of_mem_filter haA
        simpa using this
      have h3 : p.2 = locationId := by
        rw [List.map_map] at hpM
        obtain ⟨e, _, rfl⟩ := List.mem_map.mp hpM
        rfl
      exact h2 h3

/-- Closed instance of the C1 theorem: a table holding a row of another
location and a stale row of L1, saved with the selection [E1, E2]. -/
theorem locationAssignments_full_replace_idempotent_witness :
    ((assignmentPairs [⟨"E9", "L2"⟩, ⟨"E1", "L1"⟩]).Nodup ∧
      (["E1", "E2"] : List String).Nodup) ∧
    ((replaceLocationAssignments [⟨"E9", "L2"⟩, ⟨"E1", "L1"⟩] "L1" ["E1", "E2"]).filter
        (fun a => a.location_id == "L1") =
      (["E1", "E2"] : List String).map (fun employeeId =>
        { employee_id := employeeId, location_id := "L1" }) ∧
    (replaceLocationAssignments [⟨"E9", "L2"⟩, ⟨"E1", "L1"⟩] "L1" ["E1", "E2"]).filter
        (fun a => !(a.location_id == "L1")) =
      ([⟨"E9", "L2"⟩, ⟨"E1", "L1"⟩] : List Assignment).filter
        (fun a => !(a.location_id == "L1")) ∧
    replaceLocationAssignments
        (replaceLocationAssignments [⟨"E9", "L2"⟩, ⟨"E1", "L1"⟩] "L1" ["E1", "E2"])
        "L1" ["E1", "E2"] =
      replaceLocationAssignments [⟨"E9", "L2"⟩, ⟨"E1", "L1"⟩] "L1" ["E1", "E2"] ∧
    (assignmentPairs
        (replaceLocationAssignments [⟨"E9", "L2"⟩, ⟨"E1", "L1"⟩] "L1" ["E1", "E2"])).Nodup) :=
  ⟨⟨by decide, by decide⟩,
    locationAssignments_full_replace_idempotent _ "L1" _ (by decide) (by decide)⟩

/-- C9: saving from the employee-side assignment dialog replaces all of that
employee's assignments across every location: afterwards the rows of that
employee are exactly one row per selected location id, and the rows of every
other employee are exactly what they were before the save. -/
theorem handleSave_replaces_only_this_employee
    (assignments : List Assignment) (empId : String)
    (selectedLocations : List String) :
    (handleSave assignments (some empId) selectedLocations).filter
        (fun a => a.employee_id == empId) =
      selectedLocations.map (fun locationId =>
        { employee_id := empId, location_id := locationId }) ∧
    (handleSave assignments (some empId) selectedLocations).filter
        (fun a => !(a.employee_id == empId)) =
      assignments.filter (fun a => !(a.employee_id == empId)) := by
  have hre := handleSave_eq assignments empId selectedLocations
  have hMpos : (selectedLocations.map (fun locationId =>
      ({ employee_id := empId, location_id := locationId } : Assignment))).filter
        (fun a => a.employee_id == empId) =
      selectedLocations.map (fun locationId =>
        { employee_id := empId, location_id := locationId }) := by
    apply List.filter_eq_self.mpr
    intro a ha
    obtain ⟨e, _, rfl⟩ := List.mem_map.mp ha
    simp
  have hMneg : (selectedLocations.map (fun locationId =>
      ({ employee_id := empId, location_id := locationId } : Assignment))).filter
        (fun a => !(a.employee_id == empId)) = [] := by
    apply List.filter_eq_nil_iff.mpr
    intro a ha
    obtain ⟨e, _, rfl⟩ := List.mem_map.mp ha
    simp
  constructor
  · rw [hre, List.filter_append, filter_pos_of_neg, hMpos, List.nil_append]
  · rw [hre, List.filter_append, filter_neg_of_neg, hMneg, List.append_nil]

/-- C2: after a confirmed and successful delete-location, no assignment row
references the deleted location id (the cascade removed them), and the
location row itself is gone. -/
theorem deleteLocation_no_orphan_assignments
    (db : DBState) (locationId : String) (confirmed deleteOk : Bool)
    (hc : confirmed = true) (hok : deleteOk = true) :
    (handleDeleteLocation confirmed deleteOk db locationId).employee_location_assignments.filter
        (fun a => a.location_id == locationId) = [] ∧
    (handleDeleteLocation confirmed deleteOk db locationId).geofence_locations.filter
        (fun l => l.id == locationId) = [] := by
  subst hc
  subst hok
  constructor
  · show (db.employee_location_assignments.filter
        (fun a => !(a.location_id == locationId))).filter
        (fun a => a.location_id == locationId) = []
    exact filter_pos_of_neg _ _
  · show (db.geofence_locations.filter (fun l => !(l.id == locationId))).filter
        (fun l => l.id == locationId) = []
    exact filter_pos_of_neg _ _

/-- Closed instance of the C2 theorem: deleting location L1 from a state with
one location row and two assignment rows referencing it. -/
theorem deleteLocation_no_orphan_assignments_witness :
    (true = true ∧ true = true) ∧
    ((handleDeleteLocation true true
        ⟨[⟨"L1", "HQ", "1 Main St", 0, 0, 100, 5⟩], [⟨"E1", "L1"⟩, ⟨"E2", "L1"⟩]⟩
        "L1").employee_location_assignments.filter
        (fun a => a.location_id == "L1") = [] ∧
    (handleDeleteLocation true true
        ⟨[⟨"L1", "HQ", "1 Main St", 0, 0, 100, 5⟩], [⟨"E1", "L1"⟩, ⟨"E2", "L1"⟩]⟩
        "L1").geofence_locations.filter (fun l => l.id == "L1") = []) :=
  ⟨⟨rfl, rfl⟩,
    deleteLocation_no_orphan_assignments
      ⟨[⟨"L1", "HQ", "1 Main St", 0, 0, 100, 5⟩], [⟨"E1", "L1"⟩, ⟨"E2", "L1"⟩]⟩
      "L1" true true rfl rfl⟩

end HRD
